import Mathlib

/-!
Verification development for `PPODtottl.py`, a script that converts tabular
PPOD records into an RDF graph.  The Python functions are shallowly embedded
as pure Lean functions: the RDF graph is a list of triples, the diagnostics
stream is a list of strings, and a Python exception escaping a function is an
explicit `err` field carrying the exception description.  Machine integers are
modelled as `Nat` (the CRC-32 state provably stays below `2 ^ 32`).
-/

set_option maxRecDepth 10000

/-! ### Identifier hashing (`makeid`, source lines 284-286)

`makeid(s) = hex(binascii.crc32(bytes(s.encode("utf-8"))))[2:8]`.

`binascii.crc32` is the standard reflected CRC-32 (polynomial `0xEDB88320`,
initial value `0xFFFFFFFF`, final xor `0xFFFFFFFF`) over the UTF-8 encoding
of the string; in Python 3 it returns an unsigned value below `2 ^ 32`.
-/

/-- One shift-and-conditionally-xor round of the reflected CRC-32. -/
def crcStep (c : Nat) : Nat :=
  if c % 2 = 1 then (c >>> 1) ^^^ 0xEDB88320 else c >>> 1

/-- Absorb one byte into the CRC state: xor it in, then run eight rounds. -/
def crcByte (c b : Nat) : Nat :=
  crcStep (crcStep (crcStep (crcStep (crcStep (crcStep (crcStep (crcStep (c ^^^ b))))))))

/-- `binascii.crc32` over a byte sequence. -/
def crc32 (bs : List Nat) : Nat :=
  (bs.foldl crcByte 0xFFFFFFFF) ^^^ 0xFFFFFFFF

/-- UTF-8 encoding of a single scalar value (what `str.encode("utf-8")` emits
per character). -/
def utf8Bytes (ch : Char) : List Nat :=
  let n := ch.toNat
  if n < 0x80 then [n]
  else if n < 0x800 then [0xC0 + n / 64, 0x80 + n % 64]
  else if n < 0x10000 then [0xE0 + n / 4096, 0x80 + n / 64 % 64, 0x80 + n % 64]
  else [0xF0 + n / 262144, 0x80 + n / 4096 % 64, 0x80 + n / 64 % 64, 0x80 + n % 64]

/-- `s.encode("utf-8")` as a list of byte values. -/
def strBytes (s : String) : List Nat :=
  s.data.foldr (fun ch acc => utf8Bytes ch ++ acc) []

/-- The eight hex digits (most significant first) of a value below `2 ^ 32`. -/
def nibbles8 (n : Nat) : List Char :=
  [Nat.digitChar (n / 16 ^ 7 % 16), Nat.digitChar (n / 16 ^ 6 % 16),
   Nat.digitChar (n / 16 ^ 5 % 16), Nat.digitChar (n / 16 ^ 4 % 16),
   Nat.digitChar (n / 16 ^ 3 % 16), Nat.digitChar (n / 16 ^ 2 % 16),
   Nat.digitChar (n / 16 % 16), Nat.digitChar (n % 16)]

/-- Python `hex(n)[2:]` for `n < 2 ^ 32`: the minimal-length lowercase hex
expansion (leading zeros stripped, `0` for zero). -/
def pyhexChars (n : Nat) : List Char :=
  let l := (nibbles8 n).dropWhile (· == '0')
  if l.isEmpty then ['0'] else l

/-- Python `hex(n)[2:]` as a string, for `n < 2 ^ 32`. -/
def pyhex (n : Nat) : String :=
  String.mk (pyhexChars n)

/-- Source `makeid`: `hex(binascii.crc32(s.encode("utf-8")))[2:8]`, i.e. the
first (at most) six characters of the unpadded hex expansion of the CRC. -/
def makeid (s : String) : String :=
  String.mk ((pyhexChars (crc32 (strBytes s))).take 6)

/-- Modelled from the claim wording (not from the source), for comparison with
`makeid`: the lower 24 bits of the CRC-32 checksum, zero-padded to exactly six
lowercase hex characters. -/
def makeidClaimed (s : String) : String :=
  let v := crc32 (strBytes s) % 2 ^ 24
  String.mk [Nat.digitChar (v / 16 ^ 5 % 16), Nat.digitChar (v / 16 ^ 4 % 16),
    Nat.digitChar (v / 16 ^ 3 % 16), Nat.digitChar (v / 16 ^ 2 % 16),
    Nat.digitChar (v / 16 % 16), Nat.digitChar (v % 16)]

-- Sanity checks against the worked examples in the source comments
-- ("makeid('Audubon California') returns '167f6c'",
--  "'Yuba County Resource Conservation District' becomes CaPPOD:org_fb822f").
example : makeid "Audubon California" = "167f6c" := by decide
example : makeid "Yuba County Resource Conservation District" = "fb822f" := by decide

/-! ### Python string helpers used by the source -/

/-- The characters Python's `str.strip()` removes. -/
def pyIsSpace (c : Char) : Bool :=
  c == ' ' || c == '\t' || c == '\n' || c == '\r' || c == '\x0b' || c == '\x0c'

/-- Python `s.strip()`: whitespace removed from both ends. -/
def pyStrip (s : String) : String :=
  String.mk (((s.data.dropWhile pyIsSpace).reverse.dropWhile pyIsSpace).reverse)

/-- Helper for `pySplitComma`: accumulates the current piece (reversed). -/
def splitCommaAux : List Char → List Char → List String
  | [], acc => [String.mk acc.reverse]
  | c :: rest, acc =>
    if c = ',' then String.mk acc.reverse :: splitCommaAux rest []
    else splitCommaAux rest (c :: acc)

/-- Python `s.split(',')`: split on every comma, keeping empty pieces
(`"".split(',') == ['']`). -/
def pySplitComma (s : String) : List String :=
  splitCommaAux s.data []

/-- Python `','.join(l)`. -/
def joinComma : List String → String
  | [] => ""
  | [s] => s
  | s :: rest => s ++ "," ++ joinComma (rest)

/-- Does `hay` start with `needle`? -/
def leadsWith : List Char → List Char → Bool
  | [], _ => true
  | _ :: _, [] => false
  | a :: as, b :: bs => a == b && leadsWith as bs

/-- Substring test on character lists (Python `needle in hay`). -/
def hasSub (needle : List Char) : List Char → Bool
  | [] => leadsWith needle []
  | c :: rest => leadsWith needle (c :: rest) || hasSub needle rest

/-- Python `'usecase' in uri` — the source's test for a use-case flag column. -/
def usecaseFlag (uri : String) : Bool :=
  hasSub "usecase".data uri.data

/-- Concatenation of the images of `f` (used to state per-value independence of
the emitter). -/
def cmap (f : α → List β) : List α → List β
  | [] => []
  | a :: rest => f a ++ cmap f rest

/-! ### RDF data model

The source builds an `rdflib.Graph`; objects of triples are either `URIRef`s
or `Literal`s.  The graph is modelled as the list of `g.add` calls, in order;
`print` diagnostics of the vocabulary-miss handler are collected in `diags`;
a Python exception escaping the modelled code is recorded in `err` (everything
added to the graph before the exception is kept, as in the source, where the
graph is mutated in place). -/

/-- An RDF node: `rdflib.URIRef` or `rdflib.Literal`. -/
inductive RDFNode where
  | uri (s : String)
  | lit (s : String)
  deriving DecidableEq, Repr

/-- A triple as added by `g.add((subj, pred, obj))`; subjects and predicates
are always `URIRef`s in the source, so plain strings suffice for them. -/
abbrev RDFTriple := String × String × RDFNode

/-- Result of running a piece of the source: triples added, diagnostic lines
printed by the vocabulary-miss handler, and the escaping exception if any. -/
structure Out where
  triples : List RDFTriple
  diags : List String
  err : Option String
  deriving DecidableEq

/-- Sequencing of effects: if `a` raised, `b` never ran. -/
def Out.seq (a b : Out) : Out :=
  match a.err with
  | some _ => a
  | none => ⟨a.triples ++ b.triples, a.diags ++ b.diags, b.err⟩

/-! ### Namespaces and static configuration (source lines 31-276)

The source's `auxprefix` and `fslsprefix` globals are named `auxuri` and
`fslsns` here (renamed only because of local lint constraints on identifier
suffixes); their values are transcribed verbatim. -/

/-- Source global `auxprefix`. -/
def auxuri : String :=
  "https://raw.githubusercontent.com/adhollander/FSLschemas/main/CA_PPODterms.ttl#"

/-- Source global `rdfsuri`. -/
def rdfsuri : String := "http://www.w3.org/2000/01/rdf-schema#"

/-- Source global `rdfuri`. -/
def rdfuri : String := "http://www.w3.org/1999/02/22-rdf-syntax-ns#"

/-- Source global `fslsprefix`. -/
def fslsns : String :=
  "https://raw.githubusercontent.com/adhollander/FSLschemas/main/fsisupp.owl#"

/-- The `rdf:type` class URIs of the major sheets (source `PPODrefs`),
as an association list in source order. -/
def PPODrefs : List (String × String) :=
  [("Organizations", "http://xmlns.com/foaf/0.1/Organization"),
   ("Projects", "http://vivoweb.org/ontology/core#Project"),
   ("Programs", "http://vivoweb.org/ontology/core#Program"),
   ("People", "http://xmlns.com/foaf/0.1/Person"),
   ("Guidelines_Mandates", "http://www.sdsconsortium.org/schemas/sds-okn.owl#BestPracticesAndMandates"),
   ("Datasets", "http://vivoweb.org/ontology/core#Dataset"),
   ("Tools", "http://www.sdsconsortium.org/schemas/sds-okn.owl#Tool"),
   ("Issues (Integrated)", "https://raw.githubusercontent.com/adhollander/FSLschemas/main/sustsource.owl#IntegratedIssue"),
   ("Issues (Component)", "https://raw.githubusercontent.com/adhollander/FSLschemas/main/sustsource.owl#ComponentIssue")]

/-- The five-element descriptor tuple
`([d|o|v|u], property URI, property label, dictionary name or hash prefix, [s|m])`
stored for each column in the per-sheet predicate dictionaries. -/
structure PredDetails where
  kind : Char
  uri : String
  lbl : String
  ref : String
  mult : Char
  deriving DecidableEq, Repr

/-- Shorthand constructor used for transcribing the descriptor tuples. -/
def mkpr (kind : Char) (uri lbl ref : String) (mult : Char) : PredDetails :=
  ⟨kind, uri, lbl, ref, mult⟩

/-- Source `orgpred` (organization sheet schema). -/
def orgpred : List (String × PredDetails) :=
  [("Organization", mkpr 'd' "http://purl.org/dc/terms/title" "title" "" 's'),
   ("Alias", mkpr 'd' "http://www.w3.org/2004/02/skos/core#altLabel" "alias" "" 's'),
   ("isPartOf", mkpr 'o' "http://purl.org/dc/terms/isPartOf" "is part of" "org" 'm'),
   ("isMemberOf", mkpr 'o' "http://www.w3.org/ns/org#memberOf" "is member of" "org" 'm'),
   ("County", mkpr 'v' "https://raw.githubusercontent.com/adhollander/FSLschemas/main/fsisupp.owl#inCounty" "in county" "countydict" 'm'),
   ("Ecoregion", mkpr 'v' "https://raw.githubusercontent.com/adhollander/FSLschemas/main/fsisupp.owl#inEcoregion" "in ecoregion" "ecoregiondict" 'm'),
   ("hasGeography", mkpr 'v' "https://raw.githubusercontent.com/adhollander/FSLschemas/main/fsisupp.owl#assocGeo" "associated geography" "geofeaturedict" 'm'),
   ("hasOrgType", mkpr 'v' "http://www.w3.org/ns/org#classification" "organization type" "orgtypedict" 'm'),
   ("Partners", mkpr 'o' "http://vivoweb.org/ontology/core#hasCollaborator" "has partner" "org" 'm'),
   ("Funding", mkpr 'o' "http://purl.org/cerif/frapo/isFundedBy" "is funded by" "org" 'm'),
   ("hasOrgActivity", mkpr 'v' "http://purl.obolibrary.org/obo/RO_0000056" "participates in" "orgactivitydict" 'm'),
   ("Issues", mkpr 'v' "https://raw.githubusercontent.com/adhollander/FSLschemas/main/fsisupp.owl#FSI_000239" "related sustainability issue" "issuedict" 'm'),
   ("URL", mkpr 'u' "http://dev.poderopedia.com/vocab/hasURL" "has URL" "" 'm'),
   ("Contact", mkpr 'd' "http://vivoweb.org/ontology/core#contactInformation" "contact" "" 's'),
   ("Taxa", mkpr 'd' "https://raw.githubusercontent.com/adhollander/FSLschemas/main/fsisupp.owl#taxa" "taxa" "" 'm'),
   ("Land Cover - CWHR", mkpr 'v' "https://raw.githubusercontent.com/adhollander/FSLschemas/main/fsisupp.owl#habitatType" "habitat type" "habtypedict" 'm'),
   ("Commodity", mkpr 'v' "https://raw.githubusercontent.com/adhollander/FSLschemas/main/fsisupp.owl#commodity" "commodity" "commoditydict" 'm'),
   ("Ecological Process", mkpr 'd' "https://raw.githubusercontent.com/adhollander/FSLschemas/main/fsisupp.owl#ecologicalProcess" "ecological process" "" 's'),
   ("GM_Name", mkpr 'o' "https://raw.githubusercontent.com/adhollander/FSLschemas/main/fsisupp.owl#GM_Name" "guideline/mandate name" "gmt" 'm'),
   ("usecaseConservation", mkpr 'd' "https://raw.githubusercontent.com/adhollander/FSLschemas/main/fsisupp.owl#usecaseCons" "use case: Conservation" "" 's'),
   ("usecaseMeat", mkpr 'd' "https://raw.githubusercontent.com/adhollander/FSLschemas/main/fsisupp.owl#usecaseMeat" "use case: meat" "" 's'),
   ("usecaseSac", mkpr 'd' "https://raw.githubusercontent.com/adhollander/FSLschemas/main/fsisupp.owl#usecaseSac" "use case: Sacramento" "" 's'),
   ("usecaseSCAG", mkpr 'd' "https://raw.githubusercontent.com/adhollander/FSLschemas/main/fsisupp.owl#usecaseSCAG" "use case: SCAG" "" 's'),
   ("usecaseEcuador", mkpr 'd' "https://raw.githubusercontent.com/adhollander/FSLschemas/main/fsisupp.owl#usecaseEcuador" "use case: Ecuador" "" 's')]

/-- Source `projpred` (project sheet schema). -/
def projpred : List (String × PredDetails) :=
  [("Project", mkpr 'd' "http://purl.org/dc/terms/title" "title" "" 's'),
   ("Alias", mkpr 'd' "http://www.w3.org/2004/02/skos/core#altLabel" "alias" "" 's'),
   ("isPartOf", mkpr 'o' "http://purl.org/dc/terms/isPartOf" "is part of" "prj" 'm'),
   ("ProjType", mkpr 'v' "https://raw.githubusercontent.com/adhollander/FSLschemas/main/fsisupp.owl#projType" "project type" "projtypedict" 'm'),
   ("ProjProg", mkpr 'o' "http://purl.obolibrary.org/obo/BFO_0000066" "occurs in" "prg" 'm'),
   ("Organization (Lead)", mkpr 'o' "https://raw.githubusercontent.com/adhollander/FSLschemas/main/fsisupp.owl#leadOrg" "lead organization" "org" 'm'),
   ("Organization (Funding)", mkpr 'o' "http://vivoweb.org/ontology/core#fundingAgentFor" "funding organization" "org" 'm'),
   ("OrgFundProg", mkpr 'o' "http://vivoweb.org/ontology/core#hasFundingVehicle" "funding provided via" "prg" 'm'),
   ("Lead Individual", mkpr 'd' "https://raw.githubusercontent.com/adhollander/FSLschemas/main/fsisupp.owl#leadIndividual" "lead individual" "" 's'),
   ("Partners", mkpr 'o' "http://vivoweb.org/ontology/core#affiliatedOrganization" "partner organization" "org" 'm'),
   ("Location", mkpr 'd' "http://purl.obolibrary.org/obo/RO_0001025" "located in" "" 's'),
   ("County", mkpr 'v' "https://raw.githubusercontent.com/adhollander/FSLschemas/main/fsisupp.owl#inCounty" "in county" "countydict" 'm'),
   ("Ecoregion", mkpr 'v' "https://raw.githubusercontent.com/adhollander/FSLschemas/main/fsisupp.owl#inEcoregion" "in ecoregion" "ecoregiondict" 'm'),
   ("Watershed", mkpr 'd' "https://raw.githubusercontent.com/adhollander/FSLschemas/main/fsisupp.owl#inWatershed" "in watershed" "" 's'),
   ("Issues", mkpr 'v' "https://raw.githubusercontent.com/adhollander/FSLschemas/main/fsisupp.owl#FSI_000239" "related sustainability issue" "issuedict" 'm'),
   ("has description", mkpr 'u' "https://raw.githubusercontent.com/adhollander/FSLschemas/main/fsisupp.owl#projDetails" "project details" "" 's'),
   ("Indicators", mkpr 'd' "https://raw.githubusercontent.com/adhollander/FSLschemas/main/fsisupp.owl#hasIndicator" "has indicator" "" 's'),
   ("inDataset", mkpr 'o' "http://purl.obolibrary.org/obo/RO_0002352" "input of" "dts" 'm'),
   ("outDataset", mkpr 'o' "http://purl.obolibrary.org/obo/RO_0002353" "output of" "dts" 'm'),
   ("Strategies", mkpr 'd' "https://raw.githubusercontent.com/adhollander/FSLschemas/main/fsisupp.owl#hasStrategy" "has strategy" "" 'm'),
   ("URL", mkpr 'u' "http://dev.poderopedia.com/vocab/hasURL" "has URL" "" 'm'),
   ("Taxa", mkpr 'd' "https://raw.githubusercontent.com/adhollander/FSLschemas/main/fsisupp.owl#taxa" "taxa" "" 'm'),
   ("Land Cover - CWHR", mkpr 'v' "https://raw.githubusercontent.com/adhollander/FSLschemas/main/fsisupp.owl#habitatType" "habitat type" "habtypedict" 'm'),
   ("Ecological Process", mkpr 'd' "https://raw.githubusercontent.com/adhollander/FSLschemas/main/fsisupp.owl#ecologicalProcess" "ecological process" "" 's'),
   ("Start Year", mkpr 'd' "http://dbpedia.org/ontology/startYear" "startYear" "" 's'),
   ("End Year", mkpr 'd' "http://dbpedia.org/ontology/endYear" "endYear" "" 's'),
   ("Funding", mkpr 'o' "http://purl.org/cerif/frapo/isFundedBy" "isFundedBy" "org" 'm'),
   ("Latitude", mkpr 'd' "https://www.w3.org/2003/01/geo/wgs84_pos#lat" "latitude" "" 's'),
   ("Longitude", mkpr 'd' "https://www.w3.org/2003/01/geo/wgs84_pos#long" "longitude" "" 's'),
   ("FSL doc", mkpr 'u' "https://raw.githubusercontent.com/adhollander/FSLschemas/main/fsisupp.owl#FSLdoc" "FSL doc" "" 's'),
   ("Use Case (Meat)", mkpr 'd' "https://raw.githubusercontent.com/adhollander/FSLschemas/main/fsisupp.owl#usecaseMeat" "use case: meat" "" 's'),
   ("Use Case (EPA)", mkpr 'd' "https://raw.githubusercontent.com/adhollander/FSLschemas/main/fsisupp.owl#usecaseEPA" "use case: EPA" "" 's'),
   ("Use Case (JPA)", mkpr 'd' "https://raw.githubusercontent.com/adhollander/FSLschemas/main/fsisupp.owl#usecaseJPA" "use case: JPA" "" 's')]

/-- Source `progpred` (program sheet schema). -/
def progpred : List (String × PredDetails) :=
  [("Program", mkpr 'd' "http://purl.org/dc/terms/title" "title" "" 's'),
   ("Alias", mkpr 'd' "http://www.w3.org/2004/02/skos/core#altLabel" "alias" "" 's'),
   ("ProgType", mkpr 'v' "https://raw.githubusercontent.com/adhollander/FSLschemas/main/fsisupp.owl#progType" "program type" "progtypedict" 'm'),
   ("Organization", mkpr 'o' "https://raw.githubusercontent.com/adhollander/FSLschemas/main/fsisupp.owl#leadOrg" "lead organization" "org" 'm'),
   ("Partners", mkpr 'o' "http://vivoweb.org/ontology/core#affiliatedOrganization" "partner organization" "org" 'm'),
   ("Issues", mkpr 'v' "https://raw.githubusercontent.com/adhollander/FSLschemas/main/fsisupp.owl#FSI_000239" "related sustainability issue" "issuedict" 'm'),
   ("Lead Individual", mkpr 'd' "https://raw.githubusercontent.com/adhollander/FSLschemas/main/fsisupp.owl#leadIndividual" "lead individual" "" 's'),
   ("GM_Name", mkpr 'o' "https://raw.githubusercontent.com/adhollander/FSLschemas/main/fsisupp.owl#GM_Name" "guideline/mandate name" "gmt" 'm'),
   ("County", mkpr 'v' "https://raw.githubusercontent.com/adhollander/FSLschemas/main/fsisupp.owl#inCounty" "in county" "countydict" 'm'),
   ("Ecoregion", mkpr 'v' "https://raw.githubusercontent.com/adhollander/FSLschemas/main/fsisupp.owl#inEcoregion" "in ecoregion" "ecoregiondict" 'm'),
   ("URL", mkpr 'u' "http://dev.poderopedia.com/vocab/hasURL" "has URL" "" 'm'),
   ("Taxa", mkpr 'd' "https://raw.githubusercontent.com/adhollander/FSLschemas/main/fsisupp.owl#taxa" "taxa" "" 'm'),
   ("Use Case (Meat)", mkpr 'd' "https://raw.githubusercontent.com/adhollander/FSLschemas/main/fsisupp.owl#usecaseMeat" "use case: meat" "" 's'),
   ("Use Case (EPA)", mkpr 'd' "https://raw.githubusercontent.com/adhollander/FSLschemas/main/fsisupp.owl#usecaseEPA" "use case: EPA" "" 's'),
   ("Use Case (JPA)", mkpr 'd' "https://raw.githubusercontent.com/adhollander/FSLschemas/main/fsisupp.owl#usecaseJPA" "use case: JPA" "" 's'),
   ("Use Case (SCAG)", mkpr 'd' "https://raw.githubusercontent.com/adhollander/FSLschemas/main/fsisupp.owl#usecaseSCAG" "use case: SCAG" "" 's')]

/-- Source `personpred` (people sheet schema). -/
def personpred : List (String × PredDetails) :=
  [("Full Name", mkpr 'd' "http://xmlns.com/foaf/0.1/name" "full name" "" 's'),
   ("Last Name", mkpr 'd' "http://xmlns.com/foaf/0.1/lastName" "last name" "" 's'),
   ("First Name", mkpr 'd' "http://xmlns.com/foaf/0.1/firstName" "first name" "" 's'),
   ("Email", mkpr 'd' "http://xmlns.com/foaf/0.1/mbox" "email" "" 's'),
   ("Phone", mkpr 'd' "http://xmlns.com/foaf/0.1/phone" "phone" "" 's'),
   ("Issues", mkpr 'v' "https://raw.githubusercontent.com/adhollander/FSLschemas/main/fsisupp.owl#FSI_000239" "related sustainability issue" "issuedict" 'm'),
   ("Notes", mkpr 'd' "https://raw.githubusercontent.com/adhollander/FSLschemas/main/fsisupp.owl#FSI_000243" "note" "" 's'),
   ("usecaseConservation", mkpr 'd' "https://raw.githubusercontent.com/adhollander/FSLschemas/main/fsisupp.owl#usecaseCons" "use case: Conservation" "" 's'),
   ("usecaseMeat", mkpr 'd' "https://raw.githubusercontent.com/adhollander/FSLschemas/main/fsisupp.owl#usecaseMeat" "use case: meat" "" 's'),
   ("usecaseSac", mkpr 'd' "https://raw.githubusercontent.com/adhollander/FSLschemas/main/fsisupp.owl#usecaseSac" "use case: Sacramento" "" 's'),
   ("usecaseSCAG", mkpr 'd' "https://raw.githubusercontent.com/adhollander/FSLschemas/main/fsisupp.owl#usecaseSCAG" "use case: SCAG" "" 's'),
   ("usecaseEcuador", mkpr 'd' "https://raw.githubusercontent.com/adhollander/FSLschemas/main/fsisupp.owl#usecaseEcuador" "use case: Ecuador" "" 's'),
   ("usecaseBayAreaRAMP", mkpr 'd' "https://raw.githubusercontent.com/adhollander/FSLschemas/main/fsisupp.owl#usecaseBayAreaRAMP" "use case: Bay Area RAMP" "" 's')]

/-- Source `personorgpred` (people-organizations relation schema; note the
source's `'d'` multiplicity typos, transcribed as-is). -/
def personorgpred : List (String × PredDetails) :=
  [("Full Name", mkpr 'o' "http://purl.obolibrary.org/obo/RO_0000057" "has participant" "per" 's'),
   ("Organization", mkpr 'o' "http://purl.obolibrary.org/obo/RO_0000081" "role of" "org" 's'),
   ("Position (Verbatim)", mkpr 'd' "http://purl.org/dc/terms/title" "title" "" 'd'),
   ("Position (Type)", mkpr 'o' "https://raw.githubusercontent.com/adhollander/FSLschemas/main/fsisupp.owl#positionType" "position type" "positiontypedict" 'm'),
   ("Year (Start)", mkpr 'd' "http://dbpedia.org/ontology/startYear" "startYear" "" 'd'),
   ("Year (End)", mkpr 'd' "http://dbpedia.org/ontology/endYear" "endYear" "" 'd')]

/-- Source `personprojpred` (people-projects relation schema). -/
def personprojpred : List (String × PredDetails) :=
  [("Full Name", mkpr 'o' "http://purl.obolibrary.org/obo/RO_0000057" "has participant" "per" 's'),
   ("Project", mkpr 'o' "http://purl.obolibrary.org/obo/RO_0002331" "involved in" "prj" 's'),
   ("ProjRole", mkpr 'd' "http://purl.obolibrary.org/obo/RO_0000087" "has role" "" 's')]

/-- Source `personprogrampred` (people-programs relation schema). -/
def personprogrampred : List (String × PredDetails) :=
  [("Full Name", mkpr 'o' "http://purl.obolibrary.org/obo/RO_0000057" "has participant" "per" 's'),
   ("Program", mkpr 'o' "http://purl.obolibrary.org/obo/RO_0002331" "involved in" "prg" 's'),
   ("Role", mkpr 'd' "http://purl.obolibrary.org/obo/RO_0000087" "has role" "" 's'),
   ("Role (Type)", mkpr 'u' "https://raw.githubusercontent.com/adhollander/FSLschemas/main/fsisupp.owl#roleType" "role type" "" 's'),
   ("Year (Start)", mkpr 'd' "http://dbpedia.org/ontology/startYear" "start year" "" 's'),
   ("Year (End)", mkpr 'd' "http://dbpedia.org/ontology/endYear" "end year" "" 's')]

/-- Source `guidelinespred` (guidelines/mandates sheet schema). -/
def guidelinespred : List (String × PredDetails) :=
  [("GM_Name", mkpr 'd' "http://purl.org/dc/terms/title" "Name" "" 's'),
   ("Alias", mkpr 'd' "http://www.w3.org/2004/02/skos/core#altLabel" "alias" "" 's'),
   ("GMType", mkpr 'v' "https://raw.githubusercontent.com/adhollander/FSLschemas/main/fsisupp.owl#gmType" "guideline/mandate type" "gmtypedict" 'm'),
   ("Year", mkpr 'd' "http://purl.org/dc/terms/date" "date" "" 's'),
   ("Issues", mkpr 'v' "https://raw.githubusercontent.com/adhollander/FSLschemas/main/fsisupp.owl#FSI_000239" "related sustainability issue" "issuedict" 'm'),
   ("GovLevel", mkpr 'v' "https://raw.githubusercontent.com/adhollander/FSLschemas/main/fsisupp.owl#govLevel" "government level" "govleveldict" 'm'),
   ("Counties", mkpr 'v' "https://raw.githubusercontent.com/adhollander/FSLschemas/main/fsisupp.owl#inCounty" "in county" "countydict" 'm'),
   ("Ecoregions", mkpr 'v' "https://raw.githubusercontent.com/adhollander/FSLschemas/main/fsisupp.owl#inEcoregion" "in ecoregion" "ecoregiondict" 'm'),
   ("URL", mkpr 'u' "http://dev.poderopedia.com/vocab/hasURL" "has URL" "" 's'),
   ("Taxa", mkpr 'd' "https://raw.githubusercontent.com/adhollander/FSLschemas/main/fsisupp.owl#taxa" "taxa" "" 's'),
   ("Land Cover - CWHR", mkpr 'v' "https://raw.githubusercontent.com/adhollander/FSLschemas/main/fsisupp.owl#habitatType" "habitat type" "habtypedict" 'm'),
   ("Ecological Process", mkpr 'd' "https://raw.githubusercontent.com/adhollander/FSLschemas/main/fsisupp.owl#ecologicalProcess" "ecological process" "" 's'),
   ("Use Case (Meat)", mkpr 'd' "https://raw.githubusercontent.com/adhollander/FSLschemas/main/fsisupp.owl#usecaseMeat" "use case: meat" "" 's'),
   ("Use Case (EPA)", mkpr 'd' "https://raw.githubusercontent.com/adhollander/FSLschemas/main/fsisupp.owl#usecaseEPA" "use case: EPA" "" 's')]

/-- Source `orggmpred`: the lookup for the second column of the
organizations-guidelines/mandates relation table, mapping a relation name to
`(kind, predicate URI, label)`. -/
def orggmpred : List (String × Char × String × String) :=
  [("Created", ('o', "http://iflastandards.info/ns/fr/frbr/frbrer/P2008", "creator of")),
   ("Was Created By", ('o', "http://iflastandards.info/ns/fr/frbr/frbrer/P2007", "was created by")),
   ("Implements", ('o', "https://w3id.org/dingo#implements", "implements")),
   ("Mandates", ('o', "https://raw.githubusercontent.com/adhollander/FSLschemas/main/fsisupp.owl#mandates", "mandates")),
   ("Is Bound By", ('o', "https://raw.githubusercontent.com/adhollander/FSLschemas/main/fsisupp.owl#isboundby", "is bound by")),
   ("Funds Established By", ('o', "http://vivoweb.org/ontology/core#hasFundingVehicle", "has funding vehicle")),
   ("Is Certified By", ('o', "https://raw.githubusercontent.com/adhollander/FSLschemas/main/fsisupp.owl#iscertifiedby", "is certified by")),
   ("Enforces", ('o', "https://raw.githubusercontent.com/adhollander/FSLschemas/main/fsisupp.owl#enforces", "enforces"))]

/-- Source `orgprojgmpred` (columns C, D, E of the org-proj-GM table). -/
def orgprojgmpred : List (String × PredDetails) :=
  [("Organization", mkpr 'o' "http://purl.obolibrary.org/obo/RO_0000057" "has participant" "org" 's'),
   ("OrgProjRelation", mkpr 'o' "http://purl.obolibrary.org/obo/RO_0000087" "has role" "orgprojrelationdict" 's'),
   ("Project", mkpr 'o' "http://purl.obolibrary.org/obo/RO_0002331" "involved in" "prj" 's')]

/-- Source `datasetpred` (datasets sheet schema). -/
def datasetpred : List (String × PredDetails) :=
  [("Name", mkpr 'd' "http://purl.org/dc/terms/title" "title" "" 's'),
   ("Organization (Created By)", mkpr 'o' "http://iflastandards.info/ns/fr/frbr/frbrer/P2007" "was created by" "org" 's'),
   ("Issues", mkpr 'v' "https://raw.githubusercontent.com/adhollander/FSLschemas/main/fsisupp.owl#FSI_000239" "related sustainability issue" "issuedict" 'm'),
   ("GM_Name", mkpr 'o' "https://raw.githubusercontent.com/adhollander/FSLschemas/main/fsisupp.owl#mandatedBy" "mandated by" "gmt" 'm'),
   ("URL", mkpr 'u' "http://dev.poderopedia.com/vocab/hasURL" "has URL" "" 's'),
   ("Use Case (Meat)", mkpr 'd' "https://raw.githubusercontent.com/adhollander/FSLschemas/main/fsisupp.owl#usecaseMeat" "use case: meat" "" 's'),
   ("Use Case (JPA)", mkpr 'd' "https://raw.githubusercontent.com/adhollander/FSLschemas/main/fsisupp.owl#usecaseJPA" "use case: JPA" "" 's'),
   ("Use Case (EPA)", mkpr 'd' "https://raw.githubusercontent.com/adhollander/FSLschemas/main/fsisupp.owl#usecaseEPA" "use case: EPA" "" 's')]

/-- Source `toolpred` (tools sheet schema). -/
def toolpred : List (String × PredDetails) :=
  [("Tool", mkpr 'd' "http://purl.org/dc/terms/title" "title" "" 's'),
   ("Alias", mkpr 'd' "http://www.w3.org/2004/02/skos/core#altLabel" "alias" "" 's'),
   ("Organization", mkpr 'o' "http://iflastandards.info/ns/fr/frbr/frbrer/P2007" "was created by" "org" 's'),
   ("Issues", mkpr 'v' "https://raw.githubusercontent.com/adhollander/FSLschemas/main/fsisupp.owl#FSI_000239" "related sustainability issue" "issuedict" 'm'),
   ("inDataset", mkpr 'o' "http://purl.obolibrary.org/obo/RO_0002233" "has input" "dts" 'm'),
   ("outDataset", mkpr 'o' "http://purl.obolibrary.org/obo/RO_0000087" "has output" "dts" 'm'),
   ("ToolDetails", mkpr 'd' "http://purl.org/dc/terms/references" "references" "" 's'),
   ("URL", mkpr 'u' "http://dev.poderopedia.com/vocab/hasURL" "has URL" "" 's')]

/-- Source `usecases`: the static use-case-name to (URI, label) table.
It is defined in the source but never consulted by `addtriple` or
`creategraph`. -/
def usecases : List (String × String × String) :=
  [("usecaseConservation", ("https://raw.githubusercontent.com/adhollander/FSLschemas/main/CA_PPODterms.ttl#usecaseConservation", "Conservation use case")),
   ("usecaseMeat", ("https://raw.githubusercontent.com/adhollander/FSLschemas/main/CA_PPODterms.ttl#usecaseMeat", "Meat use case")),
   ("usecaseSac", ("https://raw.githubusercontent.com/adhollander/FSLschemas/main/CA_PPODterms.ttl#usecaseSac", "Sacramento case")),
   ("usecaseSCAG", ("https://raw.githubusercontent.com/adhollander/FSLschemas/main/CA_PPODterms.ttl#usecaseSCAG", "SCAG use case")),
   ("usecaseEcuador", ("https://raw.githubusercontent.com/adhollander/FSLschemas/main/CA_PPODterms.ttl#usecaseEcuador", "Ecuador use case")),
   ("usecaseBayAreaRAMP", ("https://raw.githubusercontent.com/adhollander/FSLschemas/main/CA_PPODterms.ttl#BayAreaRAMP", "Bay Area RAMP use case")),
   ("Use Case (Meat)", ("https://raw.githubusercontent.com/adhollander/FSLschemas/main/CA_PPODterms.ttl#usecaseMeat", "Meat use case")),
   ("Use Case (EPA)", ("https://raw.githubusercontent.com/adhollander/FSLschemas/main/CA_PPODterms.ttl#usecaseEPA", "EPA use case")),
   ("Use Case (JPA)", ("https://raw.githubusercontent.com/adhollander/FSLschemas/main/CA_PPODterms.ttl#usecaseJPA", "JPA use case")),
   ("Use Case (SCAG)", ("https://raw.githubusercontent.com/adhollander/FSLschemas/main/CA_PPODterms.ttl#usecaseSCAG", "SCAG use case"))]

/-- All per-sheet predicate dictionaries, in the order the source lists them
in `predsbyclasslist` (excluding `orggmpred`, whose entries are 3-tuples). -/
def allpreds : List (List (String × PredDetails)) :=
  [orgpred, projpred, progpred, personpred, personorgpred, personprojpred,
   personprogrampred, guidelinespred, orgprojgmpred, datasetpred, toolpred]

/-! ### Vocabulary dictionaries

The source keeps one process-wide mutable dict per vocabulary and resolves the
descriptor's dictionary name with `eval(prdetails[3])`.  We model the global
scope as an association list from dictionary name to dictionary (itself an
association list from term to URI, in insertion order); a name that resolves
to no dictionary corresponds to a Python `NameError`. -/

/-- The global vocabulary-dictionary scope. -/
abbrev VocabEnv := List (String × List (String × String))

/-- Resolve a dictionary name in the global scope (`eval(prdetails[3])`). -/
def getDict (env : VocabEnv) (name : String) : Option (List (String × String)) :=
  List.lookup name env

/-! ### The triple emitter (`addtriple`, source lines 313-353) -/

/-- The `"All"` wildcard step of `addtriple`: when the cell is exactly `"All"`
and the descriptor's dictionary is the county or ecoregion dictionary, the
cell value is replaced by the comma-join of all keys of that dictionary. -/
def allExpand (env : VocabEnv) (pr : PredDetails) (cellval : String) :
    Except String String :=
  if cellval = "All" ∧ pr.ref = "countydict" then
    match getDict env "countydict" with
    | some d => .ok (joinComma (d.map Prod.fst))
    | none => .error "NameError: countydict"
  else if cellval = "All" ∧ pr.ref = "ecoregiondict" then
    match getDict env "ecoregiondict" with
    | some d => .ok (joinComma (d.map Prod.fst))
    | none => .error "NameError: ecoregiondict"
  else .ok cellval

/-- The `celllist` computed by `addtriple`: wildcard expansion, then comma
split with `strip` for multiplicity `'m'`, the whole value otherwise. -/
def celllistOf (env : VocabEnv) (pr : PredDetails) (cellval : String) :
    Except String (List String) :=
  match allExpand env pr cellval with
  | .error e => .error e
  | .ok cv =>
    .ok (if pr.mult = 'm' then (pySplitComma cv).map pyStrip else [cv])

/-- One iteration of `addtriple`'s `for cell in celllist` loop.  `obj` is the
loop-carried local variable of the same name: it is only (re)assigned on some
paths, and reading it while it is still unassigned raises — Python reports
`UnboundLocalError` (a subclass of `NameError`), modelled as the error string
`"NameError: obj"`.  The result is the new `obj`, the triples added and the
diagnostics printed by this iteration. -/
def emitStep (env : VocabEnv) (pr : PredDetails) (subj lbl : String)
    (obj : Option RDFNode) (cell : String) :
    Except String (Option RDFNode × List RDFTriple × List String) :=
  if pr.kind = 'd' then
    if usecaseFlag pr.uri then
      if cell = "X" ∨ cell = "x" then
        .ok (some (RDFNode.uri pr.uri),
             [(subj, fslsns ++ "usecase", RDFNode.uri pr.uri)], [])
      else
        match obj with
        | none => .error "NameError: obj"
        | some ob => .ok (some ob, [(subj, pr.uri, ob)], [])
    else
      let cell2 := if pr.ref = "countydict" then cell ++ " County" else cell
      .ok (some (RDFNode.lit cell2), [(subj, pr.uri, RDFNode.lit cell2)], [])
  else if pr.kind = 'v' then
    match getDict env pr.ref with
    | none => .error ("NameError: " ++ pr.ref)
    | some d =>
      match List.lookup cell d with
      | some u => .ok (some (RDFNode.uri u), [(subj, pr.uri, RDFNode.uri u)], [])
      | none => .ok (obj, [], [lbl ++ ": " ++ cell ++ " not in " ++ pr.ref])
  else if pr.kind = 'o' then
    .ok (some (RDFNode.uri (auxuri ++ pr.ref ++ "_" ++ makeid cell)),
         [(subj, pr.uri, RDFNode.uri (auxuri ++ pr.ref ++ "_" ++ makeid cell))], [])
  else if pr.kind = 'u' then
    .ok (some (RDFNode.uri cell), [(subj, pr.uri, RDFNode.uri cell)], [])
  else
    .ok (obj, [], [])

/-- `addtriple`'s loop over `celllist`, threading the `obj` local. -/
def addcells (env : VocabEnv) (pr : PredDetails) (subj lbl : String) :
    Option RDFNode → List String → Out
  | _, [] => ⟨[], [], none⟩
  | obj, cell :: rest =>
    match emitStep env pr subj lbl obj cell with
    | .error e => ⟨[], [], some e⟩
    | .ok (obj2, ts, ds) =>
      let o := addcells env pr subj lbl obj2 rest
      ⟨ts ++ o.triples, ds ++ o.diags, o.err⟩

/-- Source `addtriple(g, prdetails, subjval, cellval, subjectstr)`, as the
effect it has: the triples it adds to `g`, the lines it prints, and the
exception it lets escape, if any. -/
def addtriple (env : VocabEnv) (pr : PredDetails)
    (subjval cellval subjectstr : String) : Out :=
  match celllistOf env pr cellval with
  | .error e => ⟨[], [], some e⟩
  | .ok cl => addcells env pr subjval subjectstr none cl

/-! ### Ingestion loops of `creategraph` (source lines 574-767) -/

/-- A sheet row: the column names paired with the row's cell values, in
column order (`df.columns[c]` / `df.iloc[r,c]`). -/
abbrev Row := List (String × String)

/-- `df.iloc[r,i]` for a row: positional cell access.  (`pandas` raises on an
out-of-range column; the sheets provide all configured columns, so the
out-of-range case is modelled as the empty string.) -/
def cellAt (row : Row) (i : Nat) : String :=
  ((row.get? i).map Prod.snd).getD ""

/-- `df.iloc[r,0]`, the first-column label of a row. -/
def rowLabel (row : Row) : String :=
  cellAt row 0

/-- The per-column loop shared by all standard entity sheets: for each column,
a non-empty cell is run through `addtriple` with the descriptor found in the
sheet's predicate dictionary; a column name missing from the dictionary
raises `KeyError` (only ever evaluated for non-empty cells). -/
def processCols (env : VocabEnv) (schema : List (String × PredDetails))
    (subj lbl : String) : Row → Out
  | [] => ⟨[], [], none⟩
  | (colname, cell) :: rest =>
    if cell = "" then processCols env schema subj lbl rest
    else
      match List.lookup colname schema with
      | none => ⟨[], [], some ("KeyError: " ++ colname)⟩
      | some pr =>
        let o := addtriple env pr subj cell lbl
        match o.err with
        | some _ => o
        | none =>
          let o2 := processCols env schema subj lbl rest
          ⟨o.triples ++ o2.triples, o.diags ++ o2.diags, o2.err⟩

/-- Configuration of one standard entity sheet's ingestion loop: its predicate
dictionary, its `rdf:type` class URI, its three-letter hash prefix, and
whether the loop adds the `rdfs:label` triple before the `rdf:type` triple
(only the guidelines loop does). -/
structure StdConfig where
  schema : List (String × PredDetails)
  classURI : String
  pfx : String
  labelFirst : Bool
  deriving DecidableEq

/-- One iteration of a standard entity sheet's row loop (organizations,
programs, projects, people, guidelines, datasets, tools): mint the subject
from the first column's label, add the `rdf:type` and `rdfs:label` triples
unconditionally, then run every non-empty cell through `addtriple`. -/
def ingestStdRow (env : VocabEnv) (cfg : StdConfig) (row : Row) : Out :=
  let lbl := rowLabel row
  let subj := auxuri ++ cfg.pfx ++ "_" ++ makeid lbl
  let head : List RDFTriple :=
    if cfg.labelFirst then
      [(subj, rdfsuri ++ "label", RDFNode.lit lbl),
       (subj, rdfuri ++ "type", RDFNode.uri cfg.classURI)]
    else
      [(subj, rdfuri ++ "type", RDFNode.uri cfg.classURI),
       (subj, rdfsuri ++ "label", RDFNode.lit lbl)]
  let o := processCols env cfg.schema subj lbl row
  ⟨head ++ o.triples, o.diags, o.err⟩

/-- The organizations ingestion configuration (source lines 578-588). -/
def orgConfig : StdConfig :=
  ⟨orgpred, "http://xmlns.com/foaf/0.1/Organization", "org", false⟩

/-- The seven standard entity sheet configurations, in source order:
organizations, programs, projects, people, guidelines/mandates, datasets,
tools.  Only the guidelines loop adds `rdfs:label` before `rdf:type`. -/
def stdConfigs : List StdConfig :=
  [orgConfig,
   ⟨progpred, "http://vivoweb.org/ontology/core#Program", "prg", false⟩,
   ⟨projpred, "http://vivoweb.org/ontology/core#Project", "prj", false⟩,
   ⟨personpred, "http://xmlns.com/foaf/0.1/Person", "per", false⟩,
   ⟨guidelinespred, "http://www.sdsconsortium.org/schemas/sds-okn.owl#BestPracticesAndMandates", "gmt", true⟩,
   ⟨datasetpred, "http://vivoweb.org/ontology/core#Dataset", "dat", false⟩,
   ⟨toolpred, "http://www.sdsconsortium.org/schemas/sds-okn.owl#Tool", "tol", false⟩]

/-- The BFO `Role` class URI used by the relation-table loops. -/
def bfoRoleURI : String := "http://purl.obolibrary.org/obo/BFO_0000023"

/-- The per-column loop of the people-organizations ingestion (source lines
647-659).  Column index 2 (`Position (Verbatim)`) gets the fallback chain:
empty cell → the `Position (Type)` cell (`iloc[r,3]`) → the literal
`"Unstated role"`.  The substitution happens here, inside the column loop,
after the role string and the label/type triples were already produced from
the raw row.  (The source's `"Rebecca Fris"` / `"empty string"` debug prints
affect no graph state and are not modelled.) -/
def peopleOrgCols (env : VocabEnv) (row : Row) (subj rolestr : String) :
    Nat → Row → Out
  | _, [] => ⟨[], [], none⟩
  | c, (colname, cell) :: rest =>
    let cellval :=
      if c = 2 then
        let cv := if cell = "" then cellAt row 3 else cell
        if cv = "" then "Unstated role" else cv
      else cell
    if cellval = "" then peopleOrgCols env row subj rolestr (c + 1) rest
    else
      match List.lookup colname personorgpred with
      | none => ⟨[], [], some ("KeyError: " ++ colname)⟩
      | some pr =>
        let o := addtriple env pr subj cellval rolestr
        match o.err with
        | some _ => o
        | none =>
          let o2 := peopleOrgCols env row subj rolestr (c + 1) rest
          ⟨o.triples ++ o2.triples, o.diags ++ o2.diags, o2.err⟩

/-- One iteration of the people-organizations row loop (source lines 642-659):
the role string is the concatenation of the raw person, organization and
`Position (Verbatim)` cells; the Role subject is minted from it; `rdfs:label`
(of the raw `iloc[r,2]` cell) and `rdf:type` are added; then the columns are
processed with the index-2 fallback chain. -/
def ingestPeopleOrgRow (env : VocabEnv) (row : Row) : Out :=
  let rolestr := cellAt row 0 ++ cellAt row 1 ++ cellAt row 2
  let subj := auxuri ++ "rol_" ++ makeid rolestr
  let head : List RDFTriple :=
    [(subj, rdfsuri ++ "label", RDFNode.lit (cellAt row 2)),
     (subj, rdfuri ++ "type", RDFNode.uri bfoRoleURI)]
  let o := peopleOrgCols env row subj rolestr 0 row
  ⟨head ++ o.triples, o.diags, o.err⟩

/-- One iteration of the people-program row loop (source lines 687-698).
The loop iterates over the people-program sheet's rows, but takes the role
string and the `rdfs:label` literal from the people-organizations sheet's row
of the same index (`peopleorgdf.iloc[r,*]`) — hence the two row arguments:
`orgRow` is `peopleorgdf`'s row `r`, `progRow` is `peopleprogramdf`'s row
`r`.  The columns processed through `addtriple` are those of `progRow`. -/
def ingestPeopleProgramRow (env : VocabEnv) (orgRow progRow : Row) : Out :=
  let rolestr := cellAt orgRow 0 ++ cellAt orgRow 1 ++ cellAt orgRow 2
  let subj := auxuri ++ "rol_" ++ makeid rolestr
  let head : List RDFTriple :=
    [(subj, rdfsuri ++ "label", RDFNode.lit (cellAt orgRow 2)),
     (subj, rdfuri ++ "type", RDFNode.uri bfoRoleURI)]
  let o := processCols env personprogrampred subj rolestr progRow
  ⟨head ++ o.triples, o.diags, o.err⟩

/-- One iteration of the organizations-guidelines/mandates row loop (source
lines 718-723): the row is read as an explicit triple; the predicate is
`orggmpred[iloc[r,1]][1]`, and a relation name absent from `orggmpred` raises
`KeyError` (there is no handler around this loop). -/
def ingestOrgGMRow (row : Row) : Out :=
  match List.lookup (cellAt row 1) orggmpred with
  | none => ⟨[], [], some ("KeyError: " ++ cellAt row 1)⟩
  | some pr =>
    ⟨[(auxuri ++ "org_" ++ makeid (cellAt row 0), pr.2.1,
       RDFNode.uri (auxuri ++ "gmt_" ++ makeid (cellAt row 2)))], [], none⟩

/-- The organizations-guidelines/mandates row loop over the whole sheet; an
exception raised for one row aborts the loop (and `creategraph` with it). -/
def ingestOrgGMTable : List Row → Out
  | [] => ⟨[], [], none⟩
  | row :: rest =>
    let o := ingestOrgGMRow row
    match o.err with
    | some _ => o
    | none =>
      let o2 := ingestOrgGMTable rest
      ⟨o.triples ++ o2.triples, o.diags ++ o2.diags, o2.err⟩

/-! ### Spec-side helpers used only to state theorems -/

/-- The per-value triples of one `emitStep` iteration when the iteration does
not depend on the loop-carried `obj` variable (every kind except the
use-case-flag reassignment path of `'d'`). -/
def emitCell (env : VocabEnv) (pr : PredDetails) (subj : String)
    (cell : String) : List RDFTriple :=
  if pr.kind = 'd' then
    if usecaseFlag pr.uri then
      if cell = "X" ∨ cell = "x" then
        [(subj, fslsns ++ "usecase", RDFNode.uri pr.uri)]
      else []
    else
      let cell2 := if pr.ref = "countydict" then cell ++ " County" else cell
      [(subj, pr.uri, RDFNode.lit cell2)]
  else if pr.kind = 'v' then
    match getDict env pr.ref with
    | none => []
    | some d =>
      match List.lookup cell d with
      | some u => [(subj, pr.uri, RDFNode.uri u)]
      | none => []
  else if pr.kind = 'o' then
    [(subj, pr.uri, RDFNode.uri (auxuri ++ pr.ref ++ "_" ++ makeid cell))]
  else if pr.kind = 'u' then
    [(subj, pr.uri, RDFNode.uri cell)]
  else []

/-- The per-value diagnostics of one `emitStep` iteration (non-empty only for
a vocabulary lookup miss). -/
def diagCell (env : VocabEnv) (pr : PredDetails) (lbl : String)
    (cell : String) : List String :=
  if pr.kind = 'v' then
    match getDict env pr.ref with
    | none => []
    | some d =>
      match List.lookup cell d with
      | some _ => []
      | none => [lbl ++ ": " ++ cell ++ " not in " ++ pr.ref]
  else []

/-- The descriptors whose `emitStep` never reads the loop-carried `obj` and
never raises: every kind except `'d'`-with-use-case-flag, with `'v'` needing
its dictionary to resolve. -/
def Stateless (env : VocabEnv) (pr : PredDetails) : Prop :=
  pr.kind = 'o' ∨ pr.kind = 'u' ∨ (pr.kind = 'd' ∧ usecaseFlag pr.uri = false)
    ∨ (pr.kind = 'v' ∧ (getDict env pr.ref).isSome = true)

/-! ### Bounds for the CRC-32 state -/

/-- Every byte of a UTF-8 encoded character is below 256. -/
theorem utf8Bytes_lt (ch : Char) : ∀ b ∈ utf8Bytes ch, b < 256 := by
  have hch : ch.toNat < 1114112 := by
    rcases ch.valid with h | h
    · exact Nat.lt_trans h (by norm_num)
    · exact h.2
  intro b hb
  simp only [utf8Bytes] at hb
  split at hb <;> [skip; split at hb] <;> [skip; skip; split at hb] <;>
    simp only [List.mem_cons, List.mem_singleton, List.not_mem_nil, or_false] at hb <;>
    omega

/-- Every byte of a UTF-8 encoded string is below 256. -/
theorem strBytes_lt (s : String) : ∀ b ∈ strBytes s, b < 256 := by
  show ∀ b ∈ s.data.foldr (fun ch acc => utf8Bytes ch ++ acc) [], b < 256
  induction s.data with
  | nil => simp
  | cons ch rest ih =>
    intro b hb
    simp only [List.foldr_cons, List.mem_append] at hb
    rcases hb with hb | hb
    · exact utf8Bytes_lt ch b hb
    · exact ih b hb

/-- A CRC round keeps the state below `2 ^ 32`. -/
theorem crcStep_lt {c : Nat} (h : c < 2 ^ 32) : crcStep c < 2 ^ 32 := by
  have hs : c >>> 1 < 2 ^ 32 := by
    rw [Nat.shiftRight_eq_div_pow]
    exact Nat.lt_of_le_of_lt (Nat.div_le_self _ _) h
  unfold crcStep
  split
  · exact Nat.xor_lt_two_pow hs (by norm_num)
  · exact hs

/-- Absorbing a byte keeps the state below `2 ^ 32`. -/
theorem crcByte_lt {c b : Nat} (hc : c < 2 ^ 32) (hb : b < 256) :
    crcByte c b < 2 ^ 32 := by
  unfold crcByte
  have h0 : c ^^^ b < 2 ^ 32 :=
    Nat.xor_lt_two_pow hc (Nat.lt_trans hb (by norm_num))
  exact crcStep_lt (crcStep_lt (crcStep_lt (crcStep_lt (crcStep_lt (crcStep_lt
    (crcStep_lt (crcStep_lt h0)))))))

/-- `binascii.crc32` returns a 32-bit value (given byte input). -/
theorem crc32_lt (bs : List Nat) (h : ∀ b ∈ bs, b < 256) :
    crc32 bs < 2 ^ 32 := by
  unfold crc32
  have main : ∀ (l : List Nat), (∀ b ∈ l, b < 256) → ∀ init : Nat,
      init < 2 ^ 32 → l.foldl crcByte init < 2 ^ 32 := by
    intro l
    induction l with
    | nil => intro _ init hinit; simpa using hinit
    | cons b rest ih =>
      intro hl init hinit
      simp only [List.foldl_cons]
      exact ih (fun x hx => hl x (List.mem_cons_of_mem _ hx))
        _ (crcByte_lt hinit (hl b (List.mem_cons_self _ _)))
  exact Nat.xor_lt_two_pow (main bs h _ (by norm_num)) (by norm_num)

/-! ### Hex-formatting lemmas -/

/-- A nonzero hex digit does not render as `'0'`. -/
theorem digitChar_ne_zero : ∀ d, d < 16 → d ≠ 0 → (Nat.digitChar d == '0') = false := by
  decide

/-- For a value with a full eight hex digits, `hex(n)[2:]` keeps all eight. -/
theorem pyhexChars_big {n : Nat} (h1 : 16 ^ 7 ≤ n) (h2 : n < 16 ^ 8) :
    pyhexChars n = nibbles8 n := by
  have hd : n / 16 ^ 7 < 16 := (Nat.div_lt_iff_lt_mul (by norm_num)).2 (by
    calc n < 16 ^ 8 := h2
    _ = 16 * 16 ^ 7 := by norm_num)
  have hd1 : 1 ≤ n / 16 ^ 7 := (Nat.one_le_div_iff (by norm_num)).2 h1
  have hmod : n / 16 ^ 7 % 16 = n / 16 ^ 7 := Nat.mod_eq_of_lt hd
  have hne : (Nat.digitChar (n / 16 ^ 7 % 16) == '0') = false := by
    rw [hmod]; exact digitChar_ne_zero _ hd (by omega)
  simp only [pyhexChars, nibbles8, List.dropWhile, hne]
  rfl

/-- For a value with exactly six hex digits, `hex(n)[2:]` drops the two
leading zero nibbles and keeps the remaining six. -/
theorem pyhexChars_mid {v : Nat} (h1 : 16 ^ 5 ≤ v) (h2 : v < 16 ^ 6) :
    pyhexChars v =
      [Nat.digitChar (v / 16 ^ 5 % 16), Nat.digitChar (v / 16 ^ 4 % 16),
       Nat.digitChar (v / 16 ^ 3 % 16), Nat.digitChar (v / 16 ^ 2 % 16),
       Nat.digitChar (v / 16 % 16), Nat.digitChar (v % 16)] := by
  have hz7 : v / 16 ^ 7 = 0 := Nat.div_eq_of_lt (by
    calc v < 16 ^ 6 := h2
    _ ≤ 16 ^ 7 := by norm_num)
  have hz6 : v / 16 ^ 6 = 0 := Nat.div_eq_of_lt h2
  have hd : v / 16 ^ 5 < 16 := (Nat.div_lt_iff_lt_mul (by norm_num)).2 (by
    calc v < 16 ^ 6 := h2
    _ = 16 * 16 ^ 5 := by norm_num)
  have hd1 : 1 ≤ v / 16 ^ 5 := (Nat.one_le_div_iff (by norm_num)).2 h1
  have t1 : v / 16 ^ 7 % 16 = 0 := by rw [hz7]
  have t2 : v / 16 ^ 6 % 16 = 0 := by rw [hz6]
  have t0 : (Nat.digitChar 0 == '0') = true := rfl
  have hne : (Nat.digitChar (v / 16 ^ 5 % 16) == '0') = false := by
    rw [Nat.mod_eq_of_lt hd]; exact digitChar_ne_zero _ hd (by omega)
  simp only [pyhexChars, nibbles8, t1, t2, List.dropWhile, t0, hne]
  rfl

/-- Taking the first six of the eight hex digits of a full 32-bit value is
the same as rendering the value shifted right by one byte. -/
theorem pyhexChars_take_six {c : Nat} (h1 : 2 ^ 28 ≤ c) (h2 : c < 2 ^ 32) :
    (pyhexChars c).take 6 = pyhexChars (c / 256) := by
  have e1 : (2 : Nat) ^ 28 = 16 ^ 7 := by norm_num
  have e2 : (2 : Nat) ^ 32 = 16 ^ 8 := by norm_num
  have hb1 : 16 ^ 5 ≤ c / 256 := (Nat.le_div_iff_mul_le (by norm_num)).2 (by
    calc (16 : Nat) ^ 5 * 256 = 16 ^ 7 := by norm_num
    _ ≤ c := e1 ▸ h1)
  have hb2 : c / 256 < 16 ^ 6 := (Nat.div_lt_iff_lt_mul (by norm_num)).2 (by
    calc c < 2 ^ 32 := h2
    _ = 16 ^ 6 * 256 := by norm_num)
  rw [pyhexChars_big (e1 ▸ h1) (e2 ▸ h2), pyhexChars_mid hb1 hb2]
  have hA : c / 256 / 16 ^ 5 = c / 16 ^ 7 := by
    rw [Nat.div_div_eq_div_mul]; norm_num
  have hB : c / 256 / 16 ^ 4 = c / 16 ^ 6 := by
    rw [Nat.div_div_eq_div_mul]; norm_num
  have hC : c / 256 / 16 ^ 3 = c / 16 ^ 5 := by
    rw [Nat.div_div_eq_div_mul]; norm_num
  have hD : c / 256 / 16 ^ 2 = c / 16 ^ 4 := by
    rw [Nat.div_div_eq_div_mul]; norm_num
  have hE : c / 256 / 16 = c / 16 ^ 3 := by
    rw [Nat.div_div_eq_div_mul]; norm_num
  have hF : c / 256 = c / 16 ^ 2 := by norm_num
  rw [hA, hB, hC, hD, hE, hF]
  simp only [nibbles8]
  rfl

/-! ### Claim C1 -/

/-- Claim C1 counterexample: `makeid` does not return the lower 24 bits of the
CRC-32 zero-padded to six hex characters.  For the source's own worked example
`"Audubon California"` (CRC-32 `0x167f6c7a`), `makeid` returns `"167f6c"`
(the *upper* six hex digits) while the claimed formatting of the lower 24 bits
would be `"7f6c7a"`. -/
theorem makeid_ne_lower24_at_audubon :
    makeid "Audubon California" ≠ makeidClaimed "Audubon California" ∧
    makeid "Audubon California" = "167f6c" ∧
    makeidClaimed "Audubon California" = "7f6c7a" := by
  refine ⟨by decide, by decide, by decide⟩

/-- Claim C1 (amended): for every string `s`, `makeid s` is deterministic and
returns the first at-most-six characters of the unpadded lowercase hex
expansion of the 32-bit CRC-32 of the UTF-8 encoding of `s` — equivalently,
whenever the checksum is at least `2 ^ 28` (eight full hex digits), exactly
the six hex digits of its *upper* 24 bits (`crc >> 8`), with no `0x` prefix;
the output is never longer than six characters but is not zero-padded (it is
shorter for small checksums). -/
theorem makeid_upper24_of_full_crc (s : String) :
    makeid s = makeid s ∧
    (makeid s).length ≤ 6 ∧
    (2 ^ 28 ≤ crc32 (strBytes s) →
      makeid s = pyhex (crc32 (strBytes s) / 2 ^ 8) ∧ (makeid s).length = 6) := by
  have hlt : crc32 (strBytes s) < 2 ^ 32 := crc32_lt _ (strBytes_lt s)
  refine ⟨rfl, ?_, fun h => ⟨?_, ?_⟩⟩
  · show (String.mk _).length ≤ 6
    rw [String.length_mk, List.length_take]
    exact Nat.min_le_left _ _
  · show String.mk _ = String.mk _
    rw [pyhexChars_take_six h hlt, show (2 : Nat) ^ 8 = 256 by norm_num]
  · show (String.mk _).length = 6
    rw [String.length_mk, pyhexChars_big ((by norm_num : (2:Nat)^28 = 16^7) ▸ h)
      ((by norm_num : (2:Nat)^32 = 16^8) ▸ hlt)]
    rfl

/-- Witness for `makeid_upper24_of_full_crc` at the concrete input
`"Audubon California"`, whose checksum has eight full hex digits. -/
theorem makeid_upper24_of_full_crc_witness :
    2 ^ 28 ≤ crc32 (strBytes "Audubon California") ∧
    makeid "Audubon California" =
      pyhex (crc32 (strBytes "Audubon California") / 2 ^ 8) :=
  ⟨by decide, ((makeid_upper24_of_full_crc "Audubon California").2.2 (by decide)).1⟩

/-! ### Emitter helper lemmas -/

/-- Structure-eta for strings. -/
theorem strMk_data (s : String) : String.mk s.data = s := rfl

/-- For a descriptor whose iteration does not read the loop-carried `obj`,
`emitStep` succeeds and emits exactly `emitCell` / `diagCell`, whatever the
incoming `obj` is. -/
theorem emitStep_stateless (env : VocabEnv) (pr : PredDetails)
    (subj lbl : String) (st : Option RDFNode) (c : String)
    (H : Stateless env pr) :
    ∃ st2, emitStep env pr subj lbl st c =
      .ok (st2, emitCell env pr subj c, diagCell env pr lbl c) := by
  rcases H with hk | hk | ⟨hk, hu⟩ | ⟨hk, hd⟩
  · exact ⟨some (RDFNode.uri (auxuri ++ pr.ref ++ "_" ++ makeid c)),
      by simp [emitStep, emitCell, diagCell, hk]⟩
  · exact ⟨some (RDFNode.uri c), by simp [emitStep, emitCell, diagCell, hk]⟩
  · exact ⟨some (RDFNode.lit (if pr.ref = "countydict" then c ++ " County" else c)),
      by simp [emitStep, emitCell, diagCell, hk, hu]⟩
  · rcases Option.isSome_iff_exists.1 hd with ⟨d, hd2⟩
    cases hl : List.lookup c d with
    | some u => exact ⟨some (RDFNode.uri u),
        by simp [emitStep, emitCell, diagCell, hk, hd2, hl]⟩
    | none => exact ⟨st, by simp [emitStep, emitCell, diagCell, hk, hd2, hl]⟩

/-- For a descriptor whose iterations do not read the loop-carried `obj`, the
`addtriple` cell loop emits each value independently, in order, and never
raises: the triples are the concatenation of the per-value `emitCell`s and
the diagnostics the concatenation of the per-value `diagCell`s. -/
theorem addcells_stateless (env : VocabEnv) (pr : PredDetails)
    (subj lbl : String) (H : Stateless env pr) :
    ∀ (cells : List String) (st : Option RDFNode),
      addcells env pr subj lbl st cells =
        ⟨cmap (emitCell env pr subj) cells,
         cmap (diagCell env pr lbl) cells, none⟩ := by
  intro cells
  induction cells with
  | nil => intro st; rfl
  | cons c rest ih =>
    intro st
    rcases emitStep_stateless env pr subj lbl st c H with ⟨st2, hstep⟩
    simp [addcells, hstep, ih st2, cmap]

/-- Columns whose cell is the empty string contribute nothing: filtering them
out of a row leaves the per-column loop's output unchanged. -/
theorem processCols_skip_empty (env : VocabEnv)
    (schema : List (String × PredDetails)) (subj lbl : String) :
    ∀ row : Row,
      processCols env schema subj lbl (row.filter fun p => p.2 != "") =
        processCols env schema subj lbl row := by
  intro row
  induction row with
  | nil => rfl
  | cons p rest ih =>
    rcases p with ⟨cn, cv⟩
    by_cases hcv : cv = ""
    · subst hcv
      simpa [List.filter, processCols] using ih
    · have hb : (cv != "") = true := by simpa using hcv
      simp only [List.filter, hb, processCols, if_neg hcv]
      cases List.lookup cn schema with
      | none => rfl
      | some pr =>
        cases herr : (addtriple env pr subj cv lbl).err with
        | some e => simp [herr]
        | none => simp [herr, ih]

/-! ### Comma join/split lemmas (for the `"All"` wildcard) -/

/-- Splitting a comma-free piece yields the single accumulated piece. -/
theorem splitCommaAux_no_comma :
    ∀ (cs acc : List Char), ',' ∉ cs →
      splitCommaAux cs acc = [String.mk (acc.reverse ++ cs)] := by
  intro cs
  induction cs with
  | nil => intro acc _; simp [splitCommaAux]
  | cons c rest ih =>
    intro acc h
    have hc : ¬(c = ',') := fun e => h (by simp [e])
    have hr : ',' ∉ rest := fun e => h (List.mem_cons_of_mem _ e)
    simp only [splitCommaAux, if_neg hc]
    rw [ih (c :: acc) hr]
    simp

/-- Splitting at the first comma after a comma-free prefix. -/
theorem splitCommaAux_append :
    ∀ (cs acc rest : List Char), ',' ∉ cs →
      splitCommaAux (cs ++ ',' :: rest) acc =
        String.mk (acc.reverse ++ cs) :: splitCommaAux rest [] := by
  intro cs
  induction cs with
  | nil => intro acc rest _; simp [splitCommaAux]
  | cons c cs2 ih =>
    intro acc rest h
    have hc : ¬(c = ',') := fun e => h (by simp [e])
    have hr : ',' ∉ cs2 := fun e => h (List.mem_cons_of_mem _ e)
    simp only [List.cons_append, splitCommaAux, if_neg hc, List.append_eq]
    rw [ih (c :: acc) rest hr]
    simp

/-- Python `','.join` followed by `split(',')` restores a non-empty list of
comma-free strings. -/
theorem pySplit_joinComma :
    ∀ (l : List String), l ≠ [] → (∀ k ∈ l, ',' ∉ k.data) →
      pySplitComma (joinComma l) = l := by
  intro l
  induction l with
  | nil => intro h; cases h rfl
  | cons s rest ih =>
    intro _ hk
    cases rest with
    | nil =>
      show splitCommaAux (joinComma [s]).data [] = [s]
      have : joinComma [s] = s := rfl
      rw [this, splitCommaAux_no_comma _ _ (hk s (List.mem_singleton.2 rfl))]
      simp [strMk_data]
    | cons t rest2 =>
      show splitCommaAux (joinComma (s :: t :: rest2)).data [] = s :: t :: rest2
      have hj : joinComma (s :: t :: rest2) = s ++ "," ++ joinComma (t :: rest2) := rfl
      have hdata : (joinComma (s :: t :: rest2)).data
          = s.data ++ ',' :: (joinComma (t :: rest2)).data := by
        rw [hj, String.data_append, String.data_append]
        simp
      rw [hdata, splitCommaAux_append _ _ _ (hk s (List.mem_cons_self _ _))]
      have := ih (by simp) (fun k hk2 => hk k (List.mem_cons_of_mem _ hk2))
      simp only [pySplitComma] at this
      rw [this]
      simp [strMk_data]

/-- Mapping a function that fixes every element of a list is the identity. -/
theorem map_fix {α : Type} {f : α → α} :
    ∀ l : List α, (∀ a ∈ l, f a = a) → l.map f = l := by
  intro l
  induction l with
  | nil => intro _; rfl
  | cons a rest ih =>
    intro h
    simp only [List.map_cons, h a (List.mem_cons_self _ _),
      ih (fun b hb => h b (List.mem_cons_of_mem _ hb))]

/-! ### Claim C2 -/

/-- Claim C2: for every row of a standard entity table (any of the seven
configurations: organizations, programs, projects, people, guidelines,
datasets, tools), ingestion mints the subject as
`basePrefix ++ classPrefix ++ "_" ++ makeid (first-column label)`, emits the
`rdf:type` triple to the entity class URI and the `rdfs:label` triple with
the label text unconditionally (they are in the output even when a later
column raises), and columns with empty cells contribute no triples (filtering
them out leaves the per-column output unchanged). -/
theorem stdRow_mints_types_labels_skips_empty :
    ∀ cfg ∈ stdConfigs, ∀ (env : VocabEnv) (row : Row), row ≠ [] →
      (auxuri ++ cfg.pfx ++ "_" ++ makeid (rowLabel row), rdfuri ++ "type",
        RDFNode.uri cfg.classURI) ∈ (ingestStdRow env cfg row).triples ∧
      (auxuri ++ cfg.pfx ++ "_" ++ makeid (rowLabel row), rdfsuri ++ "label",
        RDFNode.lit (rowLabel row)) ∈ (ingestStdRow env cfg row).triples ∧
      processCols env cfg.schema (auxuri ++ cfg.pfx ++ "_" ++ makeid (rowLabel row))
          (rowLabel row) (row.filter fun p => p.2 != "") =
        processCols env cfg.schema (auxuri ++ cfg.pfx ++ "_" ++ makeid (rowLabel row))
          (rowLabel row) row := by
  intro cfg _ env row _
  refine ⟨?_, ?_, processCols_skip_empty _ _ _ _ row⟩
  · cases hlf : cfg.labelFirst <;> simp [ingestStdRow, hlf]
  · cases hlf : cfg.labelFirst <;> simp [ingestStdRow, hlf]

/-- Witness for `stdRow_mints_types_labels_skips_empty`: the spec's scenario
row, `"Yuba County Resource Conservation District"` in the organizations
table. -/
theorem stdRow_mints_types_labels_skips_empty_witness :
    (orgConfig ∈ stdConfigs ∧
      ([("Organization", "Yuba County Resource Conservation District")] : Row) ≠ []) ∧
    (auxuri ++ orgConfig.pfx ++ "_" ++
        makeid (rowLabel [("Organization", "Yuba County Resource Conservation District")]),
      rdfuri ++ "type", RDFNode.uri orgConfig.classURI) ∈
      (ingestStdRow [] orgConfig
        [("Organization", "Yuba County Resource Conservation District")]).triples :=
  ⟨⟨by decide, by decide⟩,
    (stdRow_mints_types_labels_skips_empty orgConfig (by decide) []
      [("Organization", "Yuba County Resource Conservation District")] (by decide)).1⟩

/-! ### Claim C3 -/

/-- Claim C3 counterexample: for the organizations sheet's
`usecaseConservation` column (a `'d'` descriptor whose predicate URI contains
`"usecase"`), a cell `"X"` emits the generic use-case predicate with object
equal to the *descriptor's configured predicate URI*
(`fsisupp.owl#usecaseCons`), which is *not* the URI recorded for this use
case in the static `usecases` table (`CA_PPODterms.ttl#usecaseConservation`);
the `usecases` table is never consulted. -/
theorem usecaseX_object_not_usecases_table :
    List.lookup "usecaseConservation" orgpred =
      some (mkpr 'd' "https://raw.githubusercontent.com/adhollander/FSLschemas/main/fsisupp.owl#usecaseCons"
        "use case: Conservation" "" 's') ∧
    (addtriple [] (mkpr 'd' "https://raw.githubusercontent.com/adhollander/FSLschemas/main/fsisupp.owl#usecaseCons"
        "use case: Conservation" "" 's') "S" "X" "E").triples =
      [("S", fslsns ++ "usecase",
        RDFNode.uri "https://raw.githubusercontent.com/adhollander/FSLschemas/main/fsisupp.owl#usecaseCons")] ∧
    (List.lookup "usecaseConservation" usecases).map Prod.fst =
      some "https://raw.githubusercontent.com/adhollander/FSLschemas/main/CA_PPODterms.ttl#usecaseConservation" ∧
    RDFNode.uri "https://raw.githubusercontent.com/adhollander/FSLschemas/main/fsisupp.owl#usecaseCons" ≠
      RDFNode.uri "https://raw.githubusercontent.com/adhollander/FSLschemas/main/CA_PPODterms.ttl#usecaseConservation" := by
  refine ⟨by decide, by decide, by decide, by decide⟩

/-- Claim C3 (amended): for every `'d'` descriptor whose predicate URI
contains `"usecase"`, a cell value `"X"` or `"x"` makes `addtriple` emit
exactly one triple, whose predicate is the fixed generic use-case predicate
`fslsprefix ++ "usecase"` and whose object is the descriptor's own configured
predicate URI (reused as the identifying URI of that use case); the literal
`"X"` is never emitted. -/
theorem usecaseX_emits_generic_pred (env : VocabEnv) (pr : PredDetails)
    (subj lbl cell : String) (hk : pr.kind = 'd')
    (hu : usecaseFlag pr.uri = true) (hc : cell = "X" ∨ cell = "x") :
    addtriple env pr subj cell lbl =
      ⟨[(subj, fslsns ++ "usecase", RDFNode.uri pr.uri)], [], none⟩ := by
  have hexp : allExpand env pr cell = .ok cell := by
    have h1 : ¬(cell = "All" ∧ pr.ref = "countydict") := by
      rintro ⟨ha, _⟩
      rcases hc with h | h <;> subst h <;> exact absurd ha (by decide)
    have h2 : ¬(cell = "All" ∧ pr.ref = "ecoregiondict") := by
      rintro ⟨ha, _⟩
      rcases hc with h | h <;> subst h <;> exact absurd ha (by decide)
    simp [allExpand, h1, h2]
  have hcl : celllistOf env pr cell = .ok [cell] := by
    rcases hc with h | h <;> subst h <;> by_cases hm : pr.mult = 'm' <;>
      simp [celllistOf, hexp, hm] <;> rfl
  rcases hc with h | h <;> subst h <;>
    simp [addtriple, hcl, addcells, emitStep, hk, hu]

/-- Witness for `usecaseX_emits_generic_pred` at the organizations sheet's
`usecaseConservation` descriptor with cell `"x"`. -/
theorem usecaseX_emits_generic_pred_witness :
    addtriple [] (mkpr 'd' "https://raw.githubusercontent.com/adhollander/FSLschemas/main/fsisupp.owl#usecaseCons"
        "use case: Conservation" "" 's') "S" "x" "E" =
      ⟨[("S", fslsns ++ "usecase",
        RDFNode.uri "https://raw.githubusercontent.com/adhollander/FSLschemas/main/fsisupp.owl#usecaseCons")],
       [], none⟩ :=
  usecaseX_emits_generic_pred []
    (mkpr 'd' "https://raw.githubusercontent.com/adhollander/FSLschemas/main/fsisupp.owl#usecaseCons"
      "use case: Conservation" "" 's') "S" "E" "x" (by decide) (by decide) (Or.inr rfl)

/-! ### Claim C4 -/

/-- Claim C4 counterexample: a people-organizations row whose role-text column
(`Position (Verbatim)`) and alternate role-type column (`Position (Type)`)
are both empty yields a Role node whose `rdfs:label` is the *empty* literal,
not `"Unstated role"`: the default is substituted only inside the column
loop, after the label was already emitted from the raw cell. -/
theorem peopleOrg_label_not_defaulted :
    (auxuri ++ "rol_" ++ makeid "PO", rdfsuri ++ "label", RDFNode.lit "Unstated role") ∉
      (ingestPeopleOrgRow [] [("Full Name", "P"), ("Organization", "O"),
        ("Position (Verbatim)", ""), ("Position (Type)", ""),
        ("Year (Start)", ""), ("Year (End)", "")]).triples ∧
    (auxuri ++ "rol_" ++ makeid "PO", rdfsuri ++ "label", RDFNode.lit "") ∈
      (ingestPeopleOrgRow [] [("Full Name", "P"), ("Organization", "O"),
        ("Position (Verbatim)", ""), ("Position (Type)", ""),
        ("Year (Start)", ""), ("Year (End)", "")]).triples := by
  refine ⟨by decide, by decide⟩

/-- Claim C4 (amended): for a people-organizations row with empty role-text
and role-type columns, the default `"Unstated role"` is substituted only for
the per-column triple emission, *after* the Role hash and the `rdfs:label`
triple are computed from the raw (empty) role text: the Role URI is
`auxprefix ++ "rol_" ++ makeid (person ++ organization)` — so two such rows
with the same person and organization still collapse to the same Role node —
its `rdfs:label` is the empty literal, and the `dcterms:title` triple carries
the literal `"Unstated role"`. -/
theorem peopleOrg_default_role_after_hash (env : VocabEnv) (p o : String)
    (hp : p ≠ "") (ho : o ≠ "") :
    ingestPeopleOrgRow env [("Full Name", p), ("Organization", o),
        ("Position (Verbatim)", ""), ("Position (Type)", ""),
        ("Year (Start)", ""), ("Year (End)", "")] =
      ⟨[(auxuri ++ "rol_" ++ makeid (p ++ o), rdfsuri ++ "label", RDFNode.lit ""),
        (auxuri ++ "rol_" ++ makeid (p ++ o), rdfuri ++ "type", RDFNode.uri bfoRoleURI),
        (auxuri ++ "rol_" ++ makeid (p ++ o), "http://purl.obolibrary.org/obo/RO_0000057",
          RDFNode.uri (auxuri ++ "per_" ++ makeid p)),
        (auxuri ++ "rol_" ++ makeid (p ++ o), "http://purl.obolibrary.org/obo/RO_0000081",
          RDFNode.uri (auxuri ++ "org_" ++ makeid o)),
        (auxuri ++ "rol_" ++ makeid (p ++ o), "http://purl.org/dc/terms/title",
          RDFNode.lit "Unstated role")], [], none⟩ := by
  have happ : ∀ s : String, s ++ "" = s := fun s => by
    cases s with
    | mk l => exact congrArg String.mk (List.append_nil l)
  have hft : usecaseFlag "http://purl.org/dc/terms/title" = false := rfl
  simp [ingestPeopleOrgRow, peopleOrgCols, cellAt, addtriple, celllistOf,
    allExpand, addcells, emitStep, personorgpred, List.lookup, happ, mkpr,
    hp, ho, hft]
  exact ⟨rfl, rfl⟩

/-- Witness for `peopleOrg_default_role_after_hash` at the concrete
person `"P"` and organization `"O"`. -/
theorem peopleOrg_default_role_after_hash_witness :
    ("P" : String) ≠ "" ∧ ("O" : String) ≠ "" ∧
    ingestPeopleOrgRow [] [("Full Name", "P"), ("Organization", "O"),
        ("Position (Verbatim)", ""), ("Position (Type)", ""),
        ("Year (Start)", ""), ("Year (End)", "")] =
      ⟨[(auxuri ++ "rol_" ++ makeid ("P" ++ "O"), rdfsuri ++ "label", RDFNode.lit ""),
        (auxuri ++ "rol_" ++ makeid ("P" ++ "O"), rdfuri ++ "type", RDFNode.uri bfoRoleURI),
        (auxuri ++ "rol_" ++ makeid ("P" ++ "O"), "http://purl.obolibrary.org/obo/RO_0000057",
          RDFNode.uri (auxuri ++ "per_" ++ makeid "P")),
        (auxuri ++ "rol_" ++ makeid ("P" ++ "O"), "http://purl.obolibrary.org/obo/RO_0000081",
          RDFNode.uri (auxuri ++ "org_" ++ makeid "O")),
        (auxuri ++ "rol_" ++ makeid ("P" ++ "O"), "http://purl.org/dc/terms/title",
          RDFNode.lit "Unstated role")], [], none⟩ :=
  ⟨by decide, by decide,
    peopleOrg_default_role_after_hash [] "P" "O" (by decide) (by decide)⟩

/-! ### Claim C5 -/

/-- Claim C5 is contradicted by the people-program loop (a copy/paste slip
the spec itself flags): the Role text and label are built from the
people-*organizations* sheet's row of the same index, not from the
people-program row.  With people-org row `("Bob", "OrgY", "Boss", ...)` and
people-program row `("Alice", "ProgX", "Lead", ...)`, the Role node is
hashed from `"BobOrgYBoss"` and labelled `"Boss"`; no Role node hashed from
the people-program row's own `"AliceProgXLead"` is labelled, contrary to the
claim. -/
theorem peopleProgram_role_from_wrong_row :
    (ingestPeopleProgramRow []
        [("Full Name", "Bob"), ("Organization", "OrgY"), ("Position (Verbatim)", "Boss"),
         ("Position (Type)", ""), ("Year (Start)", ""), ("Year (End)", "")]
        [("Full Name", "Alice"), ("Program", "ProgX"), ("Role", "Lead"),
         ("Role (Type)", ""), ("Year (Start)", ""), ("Year (End)", "")]).triples =
      [(auxuri ++ "rol_" ++ makeid ("Bob" ++ "OrgY" ++ "Boss"), rdfsuri ++ "label",
          RDFNode.lit "Boss"),
       (auxuri ++ "rol_" ++ makeid ("Bob" ++ "OrgY" ++ "Boss"), rdfuri ++ "type",
          RDFNode.uri bfoRoleURI),
       (auxuri ++ "rol_" ++ makeid ("Bob" ++ "OrgY" ++ "Boss"),
          "http://purl.obolibrary.org/obo/RO_0000057",
          RDFNode.uri (auxuri ++ "per_" ++ makeid "Alice")),
       (auxuri ++ "rol_" ++ makeid ("Bob" ++ "OrgY" ++ "Boss"),
          "http://purl.obolibrary.org/obo/RO_0002331",
          RDFNode.uri (auxuri ++ "prg_" ++ makeid "ProgX")),
       (auxuri ++ "rol_" ++ makeid ("Bob" ++ "OrgY" ++ "Boss"),
          "http://purl.obolibrary.org/obo/RO_0000087", RDFNode.lit "Lead")] ∧
    (auxuri ++ "rol_" ++ makeid ("Alice" ++ "ProgX" ++ "Lead"), rdfsuri ++ "label",
        RDFNode.lit "Lead") ∉
      (ingestPeopleProgramRow []
        [("Full Name", "Bob"), ("Organization", "OrgY"), ("Position (Verbatim)", "Boss"),
         ("Position (Type)", ""), ("Year (Start)", ""), ("Year (End)", "")]
        [("Full Name", "Alice"), ("Program", "ProgX"), ("Role", "Lead"),
         ("Role (Type)", ""), ("Year (Start)", ""), ("Year (End)", "")]).triples := by
  refine ⟨by decide, by decide⟩

/-! ### Claim C6 -/

/-- Claim C6: for a VocabRef (`'v'`) descriptor whose dictionary resolves,
`addtriple` never lets an exception escape (`err = none`, so subsequent
values, columns and rows keep being processed), it emits the values
independently — each hit contributing its triple, each miss contributing
*zero* triples and exactly one diagnostic line — and a missed value's
diagnostic line is exactly `"<entityLabel>: <value> not in <dictionaryName>"`. -/
theorem vocabMiss_skips_and_reports (env : VocabEnv) (pr : PredDetails)
    (subj lbl cellval : String) (d : List (String × String))
    (vals : List String) (hk : pr.kind = 'v')
    (hd : getDict env pr.ref = some d)
    (hvals : celllistOf env pr cellval = .ok vals) :
    addtriple env pr subj cellval lbl =
      ⟨cmap (emitCell env pr subj) vals, cmap (diagCell env pr lbl) vals, none⟩ ∧
    ∀ v, List.lookup v d = none →
      emitCell env pr subj v = [] ∧
      diagCell env pr lbl v = [lbl ++ ": " ++ v ++ " not in " ++ pr.ref] := by
  constructor
  · simp only [addtriple, hvals]
    exact addcells_stateless env pr subj lbl
      (Or.inr (Or.inr (Or.inr ⟨hk, by simp [hd]⟩))) vals none
  · intro v hv
    constructor
    · simp [emitCell, hk, hd, hv]
    · simp [diagCell, hk, hd, hv]

/-- Witness for `vocabMiss_skips_and_reports`: the organizations sheet's
county column against a one-entry county dictionary, with the missing value
`"Bogus"`. -/
theorem vocabMiss_skips_and_reports_witness :
    (mkpr 'v' "https://raw.githubusercontent.com/adhollander/FSLschemas/main/fsisupp.owl#inCounty"
      "in county" "countydict" 'm').kind = 'v' ∧
    addtriple [("countydict", [("Alameda", "u1")])]
        (mkpr 'v' "https://raw.githubusercontent.com/adhollander/FSLschemas/main/fsisupp.owl#inCounty"
          "in county" "countydict" 'm') "S" "Bogus" "E" =
      ⟨cmap (emitCell [("countydict", [("Alameda", "u1")])]
          (mkpr 'v' "https://raw.githubusercontent.com/adhollander/FSLschemas/main/fsisupp.owl#inCounty"
            "in county" "countydict" 'm') "S") ["Bogus"],
       cmap (diagCell [("countydict", [("Alameda", "u1")])]
          (mkpr 'v' "https://raw.githubusercontent.com/adhollander/FSLschemas/main/fsisupp.owl#inCounty"
            "in county" "countydict" 'm') "E") ["Bogus"], none⟩ ∧
    diagCell [("countydict", [("Alameda", "u1")])]
        (mkpr 'v' "https://raw.githubusercontent.com/adhollander/FSLschemas/main/fsisupp.owl#inCounty"
          "in county" "countydict" 'm') "E" "Bogus" =
      ["E: Bogus not in countydict"] :=
  ⟨by decide,
   (vocabMiss_skips_and_reports [("countydict", [("Alameda", "u1")])]
      (mkpr 'v' "https://raw.githubusercontent.com/adhollander/FSLschemas/main/fsisupp.owl#inCounty"
        "in county" "countydict" 'm') "S" "E" "Bogus" [("Alameda", "u1")]
      ["Bogus"] (by decide) (by decide) (by rfl)).1,
   ((vocabMiss_skips_and_reports [("countydict", [("Alameda", "u1")])]
      (mkpr 'v' "https://raw.githubusercontent.com/adhollander/FSLschemas/main/fsisupp.owl#inCounty"
        "in county" "countydict" 'm') "S" "E" "Bogus" [("Alameda", "u1")]
      ["Bogus"] (by decide) (by decide) (by rfl)).2 "Bogus" (by decide)).2⟩

/-! ### Claim C7 -/

/-- Claim C7: for a descriptor whose `refTarget` is the county or ecoregion
dictionary, a raw cell equal to `"All"` is replaced — before multiplicity
splitting and per-kind processing — by the comma-join of all keys currently
in that dictionary, so (the dictionaries' keys being comma-free, trimmed and
at least one) the value list handed to the per-kind rule is exactly the
dictionary's current key sequence, and `addtriple` proceeds on exactly those
values.  The dictionary is looked up in the environment at emission time, so
repopulating it changes the expansion. -/
theorem allWildcard_expands_to_keys (env : VocabEnv) (pr : PredDetails)
    (subj lbl : String) (d : List (String × String))
    (href : pr.ref = "countydict" ∨ pr.ref = "ecoregiondict")
    (hd : getDict env pr.ref = some d) (hm : pr.mult = 'm')
    (hne : d.map Prod.fst ≠ [])
    (hkeys : ∀ k ∈ d.map Prod.fst, ',' ∉ k.data ∧ pyStrip k = k) :
    celllistOf env pr "All" = .ok (d.map Prod.fst) ∧
    addtriple env pr subj "All" lbl =
      addcells env pr subj lbl none (d.map Prod.fst) := by
  have hexp : allExpand env pr "All" = .ok (joinComma (d.map Prod.fst)) := by
    rcases href with h | h
    · rw [h] at hd
      simp [allExpand, h, hd]
    · rw [h] at hd
      simp [allExpand, h, hd]
  have hsplit : (pySplitComma (joinComma (d.map Prod.fst))).map pyStrip
      = d.map Prod.fst := by
    rw [pySplit_joinComma _ hne (fun k hk => (hkeys k hk).1)]
    exact map_fix _ (fun k hk => (hkeys k hk).2)
  have hcl : celllistOf env pr "All" = .ok (d.map Prod.fst) := by
    simp [celllistOf, hexp, hm, hsplit]
  exact ⟨hcl, by simp [addtriple, hcl]⟩

/-- Witness for `allWildcard_expands_to_keys`: a two-county dictionary. -/
theorem allWildcard_expands_to_keys_witness :
    (mkpr 'v' "https://raw.githubusercontent.com/adhollander/FSLschemas/main/fsisupp.owl#inCounty"
        "in county" "countydict" 'm').ref = "countydict" ∧
    celllistOf [("countydict", [("Alameda", "u1"), ("Yuba", "u2")])]
        (mkpr 'v' "https://raw.githubusercontent.com/adhollander/FSLschemas/main/fsisupp.owl#inCounty"
          "in county" "countydict" 'm') "All" =
      .ok ([("Alameda", "u1"), ("Yuba", "u2")].map Prod.fst) :=
  ⟨by decide,
   (allWildcard_expands_to_keys [("countydict", [("Alameda", "u1"), ("Yuba", "u2")])]
      (mkpr 'v' "https://raw.githubusercontent.com/adhollander/FSLschemas/main/fsisupp.owl#inCounty"
        "in county" "countydict" 'm') "S" "E" [("Alameda", "u1"), ("Yuba", "u2")]
      (Or.inl rfl) (by rfl) (by decide) (by decide) (by decide)).1⟩

/-! ### Claim C8 -/

/-- Claim C8: the emitter splits a Multi (`'m'`) cell on commas with
whitespace stripped from each piece — `"A, B,C"` yields exactly `"A"`,
`"B"`, `"C"` — while a non-Multi cell is processed as one whole value; and
for every descriptor whose iterations are `obj`-independent (all kinds except
the `'d'` use-case flag path; every Multi descriptor of every sheet of this
program is such, per the last conjunct) the values are processed
independently by the kind-specific rule, each contributing its own triples
and diagnostics. -/
theorem multiSplit_trims_and_processes_independently :
    (∀ (env : VocabEnv) (pr : PredDetails) (cellval : String),
      ¬(cellval = "All" ∧ (pr.ref = "countydict" ∨ pr.ref = "ecoregiondict")) →
      celllistOf env pr cellval =
        .ok (if pr.mult = 'm' then (pySplitComma cellval).map pyStrip
             else [cellval])) ∧
    (pySplitComma "A, B,C").map pyStrip = ["A", "B", "C"] ∧
    (∀ (env : VocabEnv) (pr : PredDetails) (subj lbl : String)
        (st : Option RDFNode) (cells : List String), Stateless env pr →
      addcells env pr subj lbl st cells =
        ⟨cmap (emitCell env pr subj) cells,
         cmap (diagCell env pr lbl) cells, none⟩) ∧
    (∀ sch ∈ allpreds, ∀ kp ∈ sch, (kp : String × PredDetails).2.mult = 'm' →
      ¬(kp.2.kind = 'd' ∧ usecaseFlag kp.2.uri = true)) := by
  refine ⟨?_, by decide,
    fun env pr subj lbl st cells H => addcells_stateless env pr subj lbl H cells st,
    by decide⟩
  intro env pr cellval h
  have h1 : ¬(cellval = "All" ∧ pr.ref = "countydict") :=
    fun hx => h ⟨hx.1, Or.inl hx.2⟩
  have h2 : ¬(cellval = "All" ∧ pr.ref = "ecoregiondict") :=
    fun hx => h ⟨hx.1, Or.inr hx.2⟩
  simp [celllistOf, allExpand, h1, h2]

/-- Witness for `multiSplit_trims_and_processes_independently`: the Multi
`Taxa` literal descriptor of the organizations sheet on the cell
`"A, B,C"`. -/
theorem multiSplit_trims_witness :
    celllistOf []
        (mkpr 'd' "https://raw.githubusercontent.com/adhollander/FSLschemas/main/fsisupp.owl#taxa"
          "taxa" "" 'm') "A, B,C" =
      .ok (if (mkpr 'd' "https://raw.githubusercontent.com/adhollander/FSLschemas/main/fsisupp.owl#taxa"
          "taxa" "" 'm').mult = 'm'
        then (pySplitComma "A, B,C").map pyStrip else ["A, B,C"]) ∧
    addcells []
        (mkpr 'd' "https://raw.githubusercontent.com/adhollander/FSLschemas/main/fsisupp.owl#taxa"
          "taxa" "" 'm') "S" "E" none ["A", "B"] =
      ⟨cmap (emitCell []
          (mkpr 'd' "https://raw.githubusercontent.com/adhollander/FSLschemas/main/fsisupp.owl#taxa"
            "taxa" "" 'm') "S") ["A", "B"],
       cmap (diagCell []
          (mkpr 'd' "https://raw.githubusercontent.com/adhollander/FSLschemas/main/fsisupp.owl#taxa"
            "taxa" "" 'm') "E") ["A", "B"], none⟩ :=
  ⟨multiSplit_trims_and_processes_independently.1 []
      (mkpr 'd' "https://raw.githubusercontent.com/adhollander/FSLschemas/main/fsisupp.owl#taxa"
        "taxa" "" 'm') "A, B,C" (by decide),
   multiSplit_trims_and_processes_independently.2.2.1 []
      (mkpr 'd' "https://raw.githubusercontent.com/adhollander/FSLschemas/main/fsisupp.owl#taxa"
        "taxa" "" 'm') "S" "E" none ["A", "B"]
      (Or.inr (Or.inr (Or.inl ⟨rfl, by decide⟩)))⟩

/-! ### Claim C9 -/

/-- Claim C9 is contradicted by the code: a relation name absent from
`orggmpred` in the organizations-guidelines table raises an *uncaught*
`KeyError` — the row is not reported with row context (no diagnostic line is
produced), it is not skipped, and ingestion does not continue: the triple of
the earlier row survives, the later good row is never processed, and the
exception escapes the loop (aborting `creategraph`). -/
theorem orggm_unknown_relation_aborts :
    ingestOrgGMTable
        [[("Organization", "Org A"), ("Relation", "Created"), ("GM_Name", "GM A")],
         [("Organization", "Org B"), ("Relation", "Bogus Relation"), ("GM_Name", "GM B")],
         [("Organization", "Org C"), ("Relation", "Mandates"), ("GM_Name", "GM C")]] =
      ⟨[(auxuri ++ "org_" ++ makeid "Org A",
          "http://iflastandards.info/ns/fr/frbr/frbrer/P2008",
          RDFNode.uri (auxuri ++ "gmt_" ++ makeid "GM A"))], [],
        some "KeyError: Bogus Relation"⟩ := by
  decide

/-! ### Claim C10 -/

/-- Claim C10: for every `'d'` descriptor whose predicate URI contains
`"usecase"` and whose multiplicity and `refTarget` match the program's
use-case columns (all of them do, per the middle conjunct), a cell value
other than `"X"`/`"x"` leaves the `obj` local unassigned in the first (and
only) loop iteration, so `addtriple` emits nothing and raises
(`UnboundLocalError`, a `NameError` subclass); the branch is reachable at
the public interface — an organizations row with `usecaseConservation` set
to `"yes"` aborts with exactly this error (after the type/label/title
triples were already added). -/
theorem usecase_nonflag_value_raises :
    (∀ (env : VocabEnv) (pr : PredDetails) (subj lbl cell : String),
      pr.kind = 'd' → usecaseFlag pr.uri = true → pr.mult ≠ 'm' →
      pr.ref ≠ "countydict" → pr.ref ≠ "ecoregiondict" →
      cell ≠ "X" → cell ≠ "x" →
      addtriple env pr subj cell lbl = ⟨[], [], some "NameError: obj"⟩) ∧
    (∀ sch ∈ allpreds, ∀ kp ∈ sch,
      (kp : String × PredDetails).2.kind = 'd' → usecaseFlag kp.2.uri = true →
      kp.2.mult ≠ 'm' ∧ kp.2.ref ≠ "countydict" ∧ kp.2.ref ≠ "ecoregiondict") ∧
    (ingestStdRow [] orgConfig
        [("Organization", "Acme"), ("usecaseConservation", "yes")]).err =
      some "NameError: obj" := by
  refine ⟨?_, by decide, by decide⟩
  intro env pr subj lbl cell hk hu hm hr1 hr2 hX hx
  have h1 : ¬(cell = "All" ∧ pr.ref = "countydict") := fun hx2 => hr1 hx2.2
  have h2 : ¬(cell = "All" ∧ pr.ref = "ecoregiondict") := fun hx2 => hr2 hx2.2
  have hcl : celllistOf env pr cell = .ok [cell] := by
    simp [celllistOf, allExpand, h1, h2, hm]
  simp [addtriple, hcl, addcells, emitStep, hk, hu, hX, hx]

/-- Witness for `usecase_nonflag_value_raises` at the organizations sheet's
`usecaseConservation` descriptor with cell `"yes"`. -/
theorem usecase_nonflag_value_raises_witness :
    addtriple [] (mkpr 'd' "https://raw.githubusercontent.com/adhollander/FSLschemas/main/fsisupp.owl#usecaseCons"
        "use case: Conservation" "" 's') "S" "yes" "E" =
      ⟨[], [], some "NameError: obj"⟩ :=
  usecase_nonflag_value_raises.1 []
    (mkpr 'd' "https://raw.githubusercontent.com/adhollander/FSLschemas/main/fsisupp.owl#usecaseCons"
      "use case: Conservation" "" 's') "S" "E" "yes" (by decide) (by decide)
    (by decide) (by decide) (by decide) (by decide) (by decide)
